import Mathlib

/-!
Verification development for the short-video assembly and rendering pipeline
of the tachelhit-drills repository (src/backend/shorts_generator.py and
src/hf_space_app.py), shallowly embedded in Lean.

External collaborators (PIL image loading, moviepy audio decoding, text
measurement, the video encoder, Cloudinary upload) appear as explicit
function parameters returning `Except` to model fallible calls; the
pipeline code itself is translated function by function from the source.
-/

namespace TachelhitDrills

/-- A read-only projection of a Drill: the dict fields read by
`generate_youtube_short` / `generate_drillplayer_demo`. Each field is
`none` when the key is absent; `some ""` models an empty string, which
Python truthiness also treats as absent. -/
structure RenderItem where
  text_catalan : Option String := none
  text_arabic : Option String := none
  text_tachelhit : Option String := none
  image_url : Option String := none
  audio_url : Option String := none
  audio_tts_url : Option String := none
deriving DecidableEq, Repr

/-- Python truthiness of `drill_data.get(key)` for a string field:
true exactly when the key is present with a non-empty value. -/
def isSet (s : Option String) : Bool :=
  (s.getD "") != ""

/-- YouTube Shorts canvas width (shorts_generator.py line 27). -/
def SHORT_WIDTH : ℤ := 1080

/-- YouTube Shorts canvas height (shorts_generator.py line 28). -/
def SHORT_HEIGHT : ℤ := 1920

/-- Demo canvas width (shorts_generator.py line 180). -/
def DEMO_WIDTH : ℤ := 1280

/-- Demo canvas height (shorts_generator.py line 181). -/
def DEMO_HEIGHT : ℤ := 720

/-- An element drawn onto the short-mode canvas: either the pasted drill
photo (post-thumbnail width/height and paste position) or one text band
(language tag, backing-rectangle x, rectangle top, rectangle bottom,
text baseline y). -/
inductive FrameElem where
  | photo (w h x y : ℤ)
  | band (lang : String) (x rectTop rectBottom textY : ℤ)
deriving DecidableEq, Repr

/-- Whether a frame element is a text band (as opposed to the photo). -/
def FrameElem.isBand : FrameElem → Bool
  | .photo _ _ _ _ => false
  | .band _ _ _ _ _ => true

/-- The photo part of the short frame (shorts_generator.py lines 58-79):
if an image locator is set, the asset store resolves it to a decoded,
thumbnail-scaled image of some width/height, pasted centred; any load
failure is caught and the frame continues without the photo. -/
def shortPhotoPart (resolveImage : String → Except String (ℤ × ℤ))
    (item : RenderItem) : List FrameElem :=
  if isSet item.image_url then
    match resolveImage (item.image_url.getD "") with
    | .ok (w, h) =>
        [FrameElem.photo w h ((SHORT_WIDTH - w) / 2) ((SHORT_HEIGHT - h) / 2)]
    | .error _ => []
  else []

/-- The top band: Catalan, bold, backing rectangle at y 100..200, text at
y 120 (shorts_generator.py lines 83-90). `textWidth font text` models
`draw.textbbox` width measurement. -/
def shortCatalanPart (textWidth : String → String → ℤ)
    (item : RenderItem) : List FrameElem :=
  if isSet item.text_catalan then
    let t := item.text_catalan.getD ""
    let x := (SHORT_WIDTH - textWidth "arialbd70" t) / 2
    [FrameElem.band "catalan" x 100 200 120]
  else []

/-- The middle band: Arabic, medium, backing rectangle at y 230..310,
text at y 240 (shorts_generator.py lines 93-99). -/
def shortArabicPart (textWidth : String → String → ℤ)
    (item : RenderItem) : List FrameElem :=
  if isSet item.text_arabic then
    let t := item.text_arabic.getD ""
    let x := (SHORT_WIDTH - textWidth "arial50" t) / 2
    [FrameElem.band "arabic" x 230 310 240]
  else []

/-- The bottom band: Tachelhit, bold gold, at y = SHORT_HEIGHT - 200 with
backing rectangle y-20..y+80 (shorts_generator.py lines 102-109). -/
def shortTachelhitPart (textWidth : String → String → ℤ)
    (item : RenderItem) : List FrameElem :=
  if isSet item.text_tachelhit then
    let t := item.text_tachelhit.getD ""
    let x := (SHORT_WIDTH - textWidth "arialbd70" t) / 2
    let y := SHORT_HEIGHT - 200
    [FrameElem.band "tachelhit" x (y - 20) (y + 80) y]
  else []

/-- Short-mode frame composition (shorts_generator.py lines 47-109): flat
background, optional centred photo, then the three fixed-position text
bands, each drawn only when its source text is truthy. Total by
construction: a photo-load failure yields the frame without the photo. -/
def composeShortFrame (resolveImage : String → Except String (ℤ × ℤ))
    (textWidth : String → String → ℤ) (item : RenderItem) : List FrameElem :=
  shortPhotoPart resolveImage item
    ++ shortCatalanPart textWidth item
    ++ shortArabicPart textWidth item
    ++ shortTachelhitPart textWidth item

/-- The bands of a frame carrying a given language tag. -/
def bandsOfLang (lang : String) (frame : List FrameElem) : List FrameElem :=
  frame.filter fun e =>
    match e with
    | .band l _ _ _ _ => l == lang
    | _ => false

/-- Vertical data of a frame element: (rectangle top, rectangle bottom,
text y); the photo constructor is irrelevant where this is used. -/
def FrameElem.vert : FrameElem → ℤ × ℤ × ℤ
  | .photo _ _ _ y => (y, y, y)
  | .band _ _ a b y => (a, b, y)

/-- Demo-mode frame composition result: the state of the 1280×720 browser
simulation canvas that the claims are about. `imageDrawn` is the pasted
photo size when the load succeeded, `none` when no locator was set or the
load failed (the border drawn around a pasted image is implied by
`imageDrawn`). -/
structure DemoFrame where
  counterIndex : ℕ
  counterTotal : ℕ
  imageDrawn : Option (ℤ × ℤ)
  textX : ℤ
  catalanShown : Bool
  tachelhitShown : Bool
  arabicShown : Bool
deriving DecidableEq, Repr

/-- Demo-mode frame composition (shorts_generator.py lines 189-284) for
item index `i` out of `n`: browser chrome, drill counter, optional photo
pasted at (60, 110) with any load failure caught and the frame continuing
(lines 238-239), then the text block whose x position is
`img_x + 320 if drill.get('image_url') else img_x` (line 242), and the
three conditional text groups. -/
def composeDemoFrame (resolveImage : String → Except String (ℤ × ℤ))
    (i n : ℕ) (item : RenderItem) : DemoFrame :=
  let img_x : ℤ := 60
  let imageDrawn :=
    if isSet item.image_url then
      match resolveImage (item.image_url.getD "") with
      | .ok wh => some wh
      | .error _ => none
    else none
  let text_x : ℤ := if isSet item.image_url then img_x + 320 else img_x
  { counterIndex := i + 1
    counterTotal := n
    imageDrawn := imageDrawn
    textX := text_x
    catalanShown := isSet item.text_catalan
    tachelhitShown := isSet item.text_tachelhit
    arabicShown := isSet item.text_arabic }

/-- Track synchronization for the short path (shorts_generator.py lines
117-129 and the equivalent hf_space_app.py lines 197-213): the duration
starts at the 4-second minimum; if the primary audio locator is truthy
and the asset store resolves and decodes it to a clip of duration `d`,
the duration becomes `max 4 (d + 0.5)` and that audio is attached; on a
missing/failed load the exception is caught and the clip falls back to
the minimum with no audio. Returns (duration, attached audio locator). -/
def syncShortAudio (resolveAudio : String → Except String ℚ)
    (item : RenderItem) : ℚ × Option String :=
  if isSet item.audio_url then
    match resolveAudio (item.audio_url.getD "") with
    | .ok d => (max 4 (d + 1/2), item.audio_url)
    | .error _ => (4, none)
  else (4, none)

/-- Track synchronization for the demo path (shorts_generator.py lines
286-301 and hf_space_app.py lines 359-375): the per-item clip starts at
5 seconds; if the TTS locator is truthy and loads as a clip of duration
`d`, the clip duration becomes `max 5 (d + 1.0)` and the TTS audio is
attached; a failed load is caught and the clip keeps 5 s with no audio. -/
def syncDemoAudio (resolveAudio : String → Except String ℚ)
    (item : RenderItem) : ℚ × Option String :=
  if isSet item.audio_tts_url then
    match resolveAudio (item.audio_tts_url.getD "") with
    | .ok d => (max 5 (d + 1), item.audio_tts_url)
    | .error _ => (5, none)
  else (5, none)

/-- A Clip: one visual frame shown for a fixed duration plus at most one
attached audio stream, identified by its source locator. -/
structure Clip (F : Type) where
  frame : F
  duration : ℚ
  audio : Option String
deriving DecidableEq, Repr

/-- The single item Clip built by `generate_youtube_short` (frame from
lines 47-109, duration and audio from lines 117-136). -/
def mkShortClip (resolveImage : String → Except String (ℤ × ℤ))
    (resolveAudio : String → Except String ℚ)
    (textWidth : String → String → ℤ) (item : RenderItem) :
    Clip (List FrameElem) :=
  { frame := composeShortFrame resolveImage textWidth item
    duration := (syncShortAudio resolveAudio item).1
    audio := (syncShortAudio resolveAudio item).2 }

/-- The per-item Clip built inside the demo loop (shorts_generator.py
lines 186-303) for the item at index `i` of `n`. -/
def mkDemoClip (resolveImage : String → Except String (ℤ × ℤ))
    (resolveAudio : String → Except String ℚ)
    (i n : ℕ) (item : RenderItem) : Clip DemoFrame :=
  { frame := composeDemoFrame resolveImage i n item
    duration := (syncDemoAudio resolveAudio item).1
    audio := (syncDemoAudio resolveAudio item).2 }

/-- The demo loop `for i, drill in enumerate(drills_data)` accumulating
`clips.append(clip)` in order (shorts_generator.py lines 184-303),
starting at index `i`. -/
def buildDemoClips (resolveImage : String → Except String (ℤ × ℤ))
    (resolveAudio : String → Except String ℚ)
    (n : ℕ) : ℕ → List RenderItem → List (Clip DemoFrame)
  | _, [] => []
  | i, item :: rest =>
      mkDemoClip resolveImage resolveAudio i n item
        :: buildDemoClips resolveImage resolveAudio n (i + 1) rest

/-- One element of the final demo timeline: the intro title card (test id
and drill count, 3 s), an item clip, or the outro branding card (3 s). -/
inductive TimelineClip where
  | intro (testId : ℤ) (count : ℕ)
  | item (c : Clip DemoFrame)
  | outro
deriving DecidableEq, Repr

/-- Duration of a timeline element: intro and outro cards are built as
3-second `ImageClip`s (shorts_generator.py lines 325, 334). -/
def TimelineClip.dur : TimelineClip → ℚ
  | .intro _ _ => 3
  | .item c => c.duration
  | .outro => 3

/-- Timeline assembly of `generate_drillplayer_demo` (shorts_generator.py
lines 184-337): build the per-item clips in input order, raise when no
drills were supplied (lines 305-306), then concatenate item clips and
bracket them with the intro and outro cards (lines 309, 337). The
returned list is the flattened order of clips in the final video. -/
def generate_drillplayer_demo (resolveImage : String → Except String (ℤ × ℤ))
    (resolveAudio : String → Except String ℚ)
    (testId : ℤ) (items : List RenderItem) :
    Except String (List TimelineClip) :=
  let clips := buildDemoClips resolveImage resolveAudio items.length 0 items
  if clips.isEmpty then
    Except.error "No drills to generate demo video"
  else
    Except.ok (TimelineClip.intro testId items.length
      :: clips.map TimelineClip.item ++ [TimelineClip.outro])

/-- Short-mode timeline (shorts_generator.py lines 131-136): the video is
exactly the one item clip, with no bracketing cards. -/
def shortTimeline (resolveImage : String → Except String (ℤ × ℤ))
    (resolveAudio : String → Except String ℚ)
    (textWidth : String → String → ℤ) (item : RenderItem) :
    List (Clip (List FrameElem)) :=
  [mkShortClip resolveImage resolveAudio textWidth item]

/-- Outcome of the external encoder call `write_videofile`: success, or a
failure carrying whether a partial output file had already been created
at the output path before the failure, and the underlying message. -/
inductive EncodeOutcome where
  | ok
  | fail (partialWritten : Bool) (msg : String)
deriving DecidableEq, Repr

/-- Remove a file from the on-disk file list (`os.remove` / `os.unlink`
guarded by `os.path.exists`). -/
def removeFile (fs : List String) (p : String) : List String :=
  fs.erase p

/-- The short-mode encode phase with its temp-file bookkeeping
(shorts_generator.py lines 111-165, identically hf_space_app.py lines
193-244): the composed frame is saved as `temp_img_path`; on encoder
success the output file exists and the cleanup removes the temp image;
on encoder failure the `except` block removes the temp image, closes the
clips and re-raises — it never removes the output path, so a partially
written output file stays behind. Returns the call outcome and the list
of files this phase leaves on disk. -/
def shortEncodePhase (enc : EncodeOutcome) (tempImg out : String) :
    Except String String × List String :=
  let fs1 : List String := [tempImg]
  match enc with
  | .ok =>
      let fs2 := fs1 ++ [out]
      (Except.ok out, removeFile fs2 tempImg)
  | .fail partialWritten msg =>
      let fs2 := fs1 ++ (if partialWritten then [out] else [])
      (Except.error ("Failed to write video file: " ++ msg),
       removeFile fs2 tempImg)

/-- The persistence step shared by both hf generators (hf_space_app.py
lines 246-258 and 426-438): when a Cloudinary credential is configured,
upload the local encode and delete it only after the upload returned a
URL — an upload exception propagates before the `os.unlink`, leaving
the local file in place; with no credential the local path is returned
as is. Returns the outcome and the files remaining on disk. -/
def persistOutput (cloudinaryConfigured : Bool)
    (upload : String → Except String String)
    (outLocal : String) (fs : List String) :
    Except String String × List String :=
  if cloudinaryConfigured then
    match upload outLocal with
    | .ok url => (Except.ok url, removeFile fs outLocal)
    | .error e => (Except.error e, fs)
  else (Except.ok outLocal, fs)

/-- An opened media handle: a moviepy `AudioFileClip` reader identified
by its source locator, or a moviepy video clip object identified by a
tag naming its creation site. -/
inductive Handle where
  | audioReader (locator : String)
  | clipHandle (tag : String)
deriving DecidableEq, Repr

/-- Handles opened for one demo item (shorts_generator.py lines 289-299):
the item `ImageClip` and, when the TTS locator is truthy and decodes,
its `AudioFileClip` reader. -/
def demoItemHandles (resolveAudio : String → Except String ℚ)
    (i : ℕ) (item : RenderItem) : List Handle :=
  Handle.clipHandle ("item" ++ toString i)
    :: (if isSet item.audio_tts_url then
          match resolveAudio (item.audio_tts_url.getD "") with
          | .ok _ => [Handle.audioReader (item.audio_tts_url.getD "")]
          | .error _ => []
        else [])

/-- All handles the demo loop opens for the items, in input order,
starting at index `i`. -/
def demoLoopHandles (resolveAudio : String → Except String ℚ) :
    ℕ → List RenderItem → List Handle
  | _, [] => []
  | i, item :: rest =>
      demoItemHandles resolveAudio i item
        ++ demoLoopHandles resolveAudio (i + 1) rest

/-- Every handle `generate_drillplayer_demo` opens: the per-item handles,
the inner concatenation of the item clips (line 309), the intro and
outro cards (lines 325, 334) and the outer concatenation (line 337). -/
def demoOpenedHandles (resolveAudio : String → Except String ℚ)
    (items : List RenderItem) : List Handle :=
  demoLoopHandles resolveAudio 0 items
    ++ [Handle.clipHandle "concat_items", Handle.clipHandle "intro",
        Handle.clipHandle "outro", Handle.clipHandle "concat_final"]

/-- The handles the demo generator closes on every exit path: its
`finally` block (shorts_generator.py lines 352-356) calls
`final_clip.close()`, `intro_clip.close()`, `outro_clip.close()`;
closing the outer composite does not close the listed child clips or
their audio readers. -/
def demoClosedHandles : List Handle :=
  [Handle.clipHandle "concat_final", Handle.clipHandle "intro",
   Handle.clipHandle "outro"]

/-- The handles still open when a demo job returns or propagates an
encode failure. -/
def demoHandlesAtExit (resolveAudio : String → Except String ℚ)
    (items : List RenderItem) : List Handle :=
  (demoOpenedHandles resolveAudio items).filter fun h =>
    !(demoClosedHandles.contains h)

/-- Handles opened by the short generator (shorts_generator.py lines
120-136): the optional `AudioFileClip` reader and the `ImageClip`. -/
def shortOpenedHandles (resolveAudio : String → Except String ℚ)
    (item : RenderItem) : List Handle :=
  (if isSet item.audio_url then
     match resolveAudio (item.audio_url.getD "") with
     | .ok _ => [Handle.audioReader (item.audio_url.getD "")]
     | .error _ => []
   else [])
    ++ [Handle.clipHandle "video"]

/-- The handles the short generator closes: both the failure path (lines
153-157) and the success path (lines 160-163) close `video_clip` and,
when present, `audio_clip`. -/
def shortClosedHandles (resolveAudio : String → Except String ℚ)
    (item : RenderItem) : List Handle :=
  Handle.clipHandle "video"
    :: (if isSet item.audio_url then
          match resolveAudio (item.audio_url.getD "") with
          | .ok _ => [Handle.audioReader (item.audio_url.getD "")]
          | .error _ => []
        else [])

/-- The handles still open when a short job returns or propagates an
encode failure. -/
def shortHandlesAtExit (resolveAudio : String → Except String ℚ)
    (item : RenderItem) : List Handle :=
  (shortOpenedHandles resolveAudio item).filter fun h =>
    !((shortClosedHandles resolveAudio item).contains h)

/-! Claim theorems. -/

/-- C1 counterexample: the claim says the 0.5-second margin applies in
demo mode as well, but `generate_drillplayer_demo` uses a 1.0-second
margin (`max(5.0, audio_clip.duration + 1.0)`, shorts_generator.py line
298): a demo item whose TTS audio lasts 6 s yields a 7-second clip, not
the claimed `max 5 6.5 = 6.5`. -/
theorem C1_counterexample :
    (syncDemoAudio (fun _ => Except.ok 6)
        { audio_tts_url := some "tts.mp3" } : ℚ × Option String).1
      ≠ max 5 (6 + 1/2) := by
  simp [syncDemoAudio, isSet]
  norm_num

/-- C1 amended: when the audio locator resolves and loads as a clip of
duration `d`, the resulting Clip's duration is `max(minimum, d + margin)`
with minimum 4 s and margin 0.5 s in short mode, and minimum 5 s and
margin 1.0 s in demo mode. -/
theorem C1_duration_margin (rI : String → Except String (ℤ × ℤ))
    (rA rT : String → Except String ℚ) (tw : String → String → ℤ)
    (i n : ℕ) (itemS itemD : RenderItem) (dS dT : ℚ)
    (hsS : isSet itemS.audio_url = true)
    (hoS : rA (itemS.audio_url.getD "") = Except.ok dS)
    (hsT : isSet itemD.audio_tts_url = true)
    (hoT : rT (itemD.audio_tts_url.getD "") = Except.ok dT) :
    (mkShortClip rI rA tw itemS).duration = max 4 (dS + 1/2)
  ∧ (mkDemoClip rI rT i n itemD).duration = max 5 (dT + 1) := by
  constructor
  · simp [mkShortClip, syncShortAudio, hsS, hoS]
  · simp [mkDemoClip, syncDemoAudio, hsT, hoT]

/-- C1 witness: a short item with a 6-second audio gets duration 6.5 and
a demo item with a 6-second TTS audio gets duration 7. -/
theorem C1_duration_margin_witness :
    (mkShortClip (fun _ => Except.error "img") (fun _ => Except.ok 6)
        (fun _ _ => 0) { audio_url := some "a.mp3" }).duration = max 4 (6 + 1/2)
  ∧ (mkDemoClip (fun _ => Except.error "img") (fun _ => Except.ok 6)
        0 1 { audio_tts_url := some "tts.mp3" }).duration = max 5 (6 + 1) :=
  C1_duration_margin (fun _ => Except.error "img") (fun _ => Except.ok 6)
    (fun _ => Except.ok 6) (fun _ _ => 0) 0 1
    { audio_url := some "a.mp3" } { audio_tts_url := some "tts.mp3" } 6 6
    (by decide) rfl (by decide) rfl

/-- C3: when the audio locator is absent (not truthy) or the asset store
fails to resolve/load it, the short Clip has duration exactly 4 and no
audio, and the demo Clip has duration exactly 5 and no audio; the
synchronizer is total (the load failure is caught inside it), so no
exception escapes. -/
theorem C3_no_audio_fallback (rI : String → Except String (ℤ × ℤ))
    (rA rT : String → Except String ℚ) (tw : String → String → ℤ)
    (i n : ℕ) (itemS itemD : RenderItem)
    (hS : isSet itemS.audio_url = false
        ∨ ∃ e, rA (itemS.audio_url.getD "") = Except.error e)
    (hD : isSet itemD.audio_tts_url = false
        ∨ ∃ e, rT (itemD.audio_tts_url.getD "") = Except.error e) :
    (mkShortClip rI rA tw itemS).duration = 4
  ∧ (mkShortClip rI rA tw itemS).audio = none
  ∧ (mkDemoClip rI rT i n itemD).duration = 5
  ∧ (mkDemoClip rI rT i n itemD).audio = none := by
  have hS4 : syncShortAudio rA itemS = (4, none) := by
    rcases hS with h | ⟨e, he⟩
    · simp [syncShortAudio, h]
    · by_cases hset : isSet itemS.audio_url
      · simp [syncShortAudio, hset, he]
      · simp [syncShortAudio, hset]
  have hD5 : syncDemoAudio rT itemD = (5, none) := by
    rcases hD with h | ⟨e, he⟩
    · simp [syncDemoAudio, h]
    · by_cases hset : isSet itemD.audio_tts_url
      · simp [syncDemoAudio, hset, he]
      · simp [syncDemoAudio, hset]
  refine ⟨?_, ?_, ?_, ?_⟩ <;> simp [mkShortClip, mkDemoClip, hS4, hD5]

/-- C3 witness: an item with no audio locator at all yields a 4-second
silent short Clip and a 5-second silent demo Clip. -/
theorem C3_no_audio_fallback_witness :
    (mkShortClip (fun _ => Except.error "img") (fun _ => Except.error "aud")
        (fun _ _ => 0) {}).duration = 4
  ∧ (mkShortClip (fun _ => Except.error "img") (fun _ => Except.error "aud")
        (fun _ _ => 0) {}).audio = none
  ∧ (mkDemoClip (fun _ => Except.error "img") (fun _ => Except.error "aud")
        0 1 {}).duration = 5
  ∧ (mkDemoClip (fun _ => Except.error "img") (fun _ => Except.error "aud")
        0 1 {}).audio = none :=
  C3_no_audio_fallback (fun _ => Except.error "img") (fun _ => Except.error "aud")
    (fun _ => Except.error "aud") (fun _ _ => 0) 0 1 {} {}
    (Or.inl rfl) (Or.inl rfl)

/-- C9: the demo clip is unchanged by the primary audio locator and its
attached audio, when present, is the item's TTS locator; symmetrically
the short clip is unchanged by the TTS locator and its attached audio,
when present, is the primary locator. -/
theorem C9_audio_locator_per_mode (rI : String → Except String (ℤ × ℤ))
    (rA : String → Except String ℚ) (tw : String → String → ℤ)
    (i n : ℕ) (item : RenderItem) (a t : Option String) :
    mkDemoClip rI rA i n { item with audio_url := a } = mkDemoClip rI rA i n item
  ∧ mkShortClip rI rA tw { item with audio_tts_url := t } = mkShortClip rI rA tw item
  ∧ ((mkDemoClip rI rA i n item).audio = none
      ∨ (mkDemoClip rI rA i n item).audio = item.audio_tts_url)
  ∧ ((mkShortClip rI rA tw item).audio = none
      ∨ (mkShortClip rI rA tw item).audio = item.audio_url) := by
  refine ⟨?_, ?_, ?_, ?_⟩
  · simp [mkDemoClip, composeDemoFrame, syncDemoAudio]
  · simp [mkShortClip, composeShortFrame, shortPhotoPart, shortCatalanPart,
      shortArabicPart, shortTachelhitPart, syncShortAudio]
  · by_cases h : isSet item.audio_tts_url
    · cases hr : rA (item.audio_tts_url.getD "") with
      | ok d => right; simp [mkDemoClip, syncDemoAudio, h, hr]
      | error e => left; simp [mkDemoClip, syncDemoAudio, h, hr]
    · left
      simp [mkDemoClip, syncDemoAudio, h]
  · by_cases h : isSet item.audio_url
    · cases hr : rA (item.audio_url.getD "") with
      | ok d => right; simp [mkShortClip, syncShortAudio, h, hr]
      | error e => left; simp [mkShortClip, syncShortAudio, h, hr]
    · left
      simp [mkShortClip, syncShortAudio, h]

/-- C10: the demo frame's text-block x position depends only on whether
the image locator is set (380 when set, 60 when not), not on the image
resolver; with a failing resolver the image area stays blank while the
text keeps the shifted position. -/
theorem C10_text_x_from_locator (r1 r2 : String → Except String (ℤ × ℤ))
    (i n : ℕ) (item : RenderItem) (e : String) :
    (composeDemoFrame r1 i n item).textX = (composeDemoFrame r2 i n item).textX
  ∧ (composeDemoFrame r1 i n item).textX
      = (if isSet item.image_url then 380 else 60)
  ∧ (composeDemoFrame (fun _ => Except.error e) i n item).imageDrawn = none := by
  refine ⟨?_, ?_, ?_⟩
  · simp [composeDemoFrame]
  · by_cases h : isSet item.image_url <;> simp [composeDemoFrame, h]
  · by_cases h : isSet item.image_url <;> simp [composeDemoFrame, h]

/-- The demo loop builds exactly one clip per input item, indexed in
input order. -/
theorem buildDemoClips_eq_enumFrom (rI : String → Except String (ℤ × ℤ))
    (rA : String → Except String ℚ) (n : ℕ) (items : List RenderItem) :
    ∀ i, buildDemoClips rI rA n i items
      = (List.enumFrom i items).map fun p => mkDemoClip rI rA p.1 n p.2 := by
  induction items with
  | nil => intro i; rfl
  | cons a l ih => intro i; simp [buildDemoClips, List.enumFrom, ih]

/-- C2: for a non-empty item list, demo mode yields the timeline
`intro :: (one clip per item, in input order) ++ [outro]`, of length
N + 2, with 3-second intro and outro cards; short mode yields exactly
the one item clip. -/
theorem C2_timeline_shape (rI : String → Except String (ℤ × ℤ))
    (rA : String → Except String ℚ) (tw : String → String → ℤ)
    (testId : ℤ) (items : List RenderItem) (item : RenderItem)
    (h : items ≠ []) :
    generate_drillplayer_demo rI rA testId items
      = Except.ok (TimelineClip.intro testId items.length
          :: (items.enum.map fun p =>
                TimelineClip.item (mkDemoClip rI rA p.1 items.length p.2))
          ++ [TimelineClip.outro])
  ∧ (TimelineClip.intro testId items.length
        :: (items.enum.map fun p =>
              TimelineClip.item (mkDemoClip rI rA p.1 items.length p.2))
        ++ [TimelineClip.outro]).length = items.length + 2
  ∧ (TimelineClip.intro testId items.length).dur = 3
  ∧ TimelineClip.outro.dur = 3
  ∧ shortTimeline rI rA tw item = [mkShortClip rI rA tw item]
  ∧ (shortTimeline rI rA tw item).length = 1 := by
  refine ⟨?_, ?_, rfl, rfl, rfl, rfl⟩
  · unfold generate_drillplayer_demo
    rw [buildDemoClips_eq_enumFrom]
    rcases items with _ | ⟨a, l⟩
    · exact absurd rfl h
    · simp [List.enum, List.enumFrom]
  · simp [List.enum]

/-- C2 witness: one default item gives the 3-element timeline
intro, the item clip, outro. -/
theorem C2_timeline_shape_witness :
    generate_drillplayer_demo (fun _ => Except.error "img")
        (fun _ => Except.error "aud") 7 [{}]
      = Except.ok [TimelineClip.intro 7 1,
          TimelineClip.item (mkDemoClip (fun _ => Except.error "img")
            (fun _ => Except.error "aud") 0 1 {}),
          TimelineClip.outro] := by
  have h := (C2_timeline_shape (fun _ => Except.error "img")
      (fun _ => Except.error "aud") (fun _ _ => 0) 7 [{}] {} (by simp)).1
  simpa [List.enum, List.enumFrom] using h

/-- C4 counterexample: when the encoder fails after creating a partial
output file, the failure exit path leaves that partial output on disk —
it removes only the temp frame image — so the claimed cleanup of the
partial output file does not happen. -/
theorem C4_counterexample :
    (shortEncodePhase (EncodeOutcome.fail true "disk full")
        "temp_short.png" "short.mp4").2 = ["short.mp4"] := by
  simp [shortEncodePhase, removeFile]

/-- C4 amended: on encoding failure the job deletes the intermediate
frame image and then propagates the failure, but it does not delete the
partial output file: when the encoder had created one, it remains on
disk; on success only the output file remains. -/
theorem C4_cleanup_partial (pw : Bool) (msg tempImg out : String)
    (hne : tempImg ≠ out) :
    (shortEncodePhase (EncodeOutcome.fail pw msg) tempImg out).1
      = Except.error ("Failed to write video file: " ++ msg)
  ∧ tempImg ∉ (shortEncodePhase (EncodeOutcome.fail pw msg) tempImg out).2
  ∧ (shortEncodePhase (EncodeOutcome.fail pw msg) tempImg out).2
      = (if pw then [out] else [])
  ∧ (shortEncodePhase EncodeOutcome.ok tempImg out).2 = [out] := by
  cases pw <;>
    simp [shortEncodePhase, removeFile, List.erase_cons, hne, Ne.symm hne]

/-- C4 witness: concrete paths on the failing-with-partial-output path. -/
theorem C4_cleanup_partial_witness :
    (shortEncodePhase (EncodeOutcome.fail true "oom") "t.png" "v.mp4").1
      = Except.error ("Failed to write video file: " ++ "oom")
  ∧ "t.png" ∉ (shortEncodePhase (EncodeOutcome.fail true "oom") "t.png" "v.mp4").2
  ∧ (shortEncodePhase (EncodeOutcome.fail true "oom") "t.png" "v.mp4").2
      = (if true then ["v.mp4"] else [])
  ∧ (shortEncodePhase EncodeOutcome.ok "t.png" "v.mp4").2 = ["v.mp4"] :=
  C4_cleanup_partial true "oom" "t.png" "v.mp4" (by decide)

/-- C5: with remote storage configured and the encode having left the
local file, a successful upload returns the remote URL and deletes the
local encode, while a failed upload propagates the error and leaves the
local encode on disk. -/
theorem C5_upload_persistence (upload : String → Except String String)
    (out u e : String) :
    (upload out = Except.ok u →
        persistOutput true upload out [out] = (Except.ok u, []))
  ∧ (upload out = Except.error e →
        persistOutput true upload out [out] = (Except.error e, [out])) := by
  constructor
  · intro h
    simp [persistOutput, h, removeFile]
  · intro h
    simp [persistOutput, h]

/-- C5 witness: one succeeding and one failing uploader. -/
theorem C5_upload_persistence_witness :
    persistOutput true (fun _ => Except.ok "https://cdn/v.mp4") "v.mp4" ["v.mp4"]
      = (Except.ok "https://cdn/v.mp4", [])
  ∧ persistOutput true (fun _ => Except.error "upload failed") "v.mp4" ["v.mp4"]
      = (Except.error "upload failed", ["v.mp4"]) :=
  ⟨(C5_upload_persistence (fun _ => Except.ok "https://cdn/v.mp4")
      "v.mp4" "https://cdn/v.mp4" "x").1 rfl,
   (C5_upload_persistence (fun _ => Except.error "upload failed")
      "v.mp4" "u" "upload failed").2 rfl⟩

/-- The TTS audio reader of any item whose TTS audio loads appears among
the handles the demo loop opens, whatever the start index. -/
theorem audioReader_mem_demoLoopHandles (rT : String → Except String ℚ)
    (items : List RenderItem) (it : RenderItem) (d : ℚ)
    (hmem : it ∈ items) (hset : isSet it.audio_tts_url = true)
    (hok : rT (it.audio_tts_url.getD "") = Except.ok d) :
    ∀ i, Handle.audioReader (it.audio_tts_url.getD "")
      ∈ demoLoopHandles rT i items := by
  induction items with
  | nil => cases hmem
  | cons a l ih =>
    intro i
    rcases List.mem_cons.mp hmem with rfl | hl
    · simp [demoLoopHandles, demoItemHandles, hset, hok]
    · simp only [demoLoopHandles, List.mem_append]
      exact Or.inr (ih hl (i + 1))

/-- C6 counterexample: a demo job with one item whose TTS audio loads
returns with that item's audio reader still open — the `finally` block
closes only the outer concatenation, intro and outro clips — so not
every opened media handle is closed before the job returns. -/
theorem C6_counterexample :
    Handle.audioReader "tts.mp3"
      ∈ demoHandlesAtExit (fun _ => Except.ok 2)
          [{ audio_tts_url := some "tts.mp3" }] := by
  simp [demoHandlesAtExit, demoOpenedHandles, demoLoopHandles,
    demoItemHandles, isSet, demoClosedHandles]

/-- C6 amended: short mode closes every opened handle on both exit
paths, and the demo path closes the outer concatenation, intro and outro
clips; but every per-item TTS audio reader that was opened in demo mode
is still open when the job exits. -/
theorem C6_handle_release (rA rT : String → Except String ℚ)
    (itemS : RenderItem) (items : List RenderItem) (it : RenderItem) (d : ℚ)
    (hmem : it ∈ items) (hset : isSet it.audio_tts_url = true)
    (hok : rT (it.audio_tts_url.getD "") = Except.ok d) :
    shortHandlesAtExit rA itemS = []
  ∧ (∀ h ∈ demoClosedHandles, h ∉ demoHandlesAtExit rT items)
  ∧ Handle.audioReader (it.audio_tts_url.getD "")
      ∈ demoHandlesAtExit rT items := by
  refine ⟨?_, ?_, ?_⟩
  · unfold shortHandlesAtExit shortOpenedHandles shortClosedHandles
    by_cases h : isSet itemS.audio_url
    · cases hr : rA (itemS.audio_url.getD "") with
      | ok x => simp [h, hr]
      | error e => simp [h, hr]
    · simp [h]
  · intro h hcl
    simp [demoHandlesAtExit, List.mem_filter, hcl]
  · have hmem2 : Handle.audioReader (it.audio_tts_url.getD "")
        ∈ demoOpenedHandles rT items := by
      unfold demoOpenedHandles
      exact List.mem_append_left _
        (audioReader_mem_demoLoopHandles rT items it d hmem hset hok 0)
    simp [demoHandlesAtExit, List.mem_filter, hmem2, demoClosedHandles]

/-- C6 witness: a one-item demo job with loading TTS audio, checked
against a short job with no audio. -/
theorem C6_handle_release_witness :
    shortHandlesAtExit (fun _ => Except.ok 2) {} = []
  ∧ (∀ h ∈ demoClosedHandles,
      h ∉ demoHandlesAtExit (fun _ => Except.ok 2)
            [{ audio_tts_url := some "t.mp3" }])
  ∧ Handle.audioReader (((some "t.mp3" : Option String)).getD "")
      ∈ demoHandlesAtExit (fun _ => Except.ok 2)
          [{ audio_tts_url := some "t.mp3" }] :=
  C6_handle_release (fun _ => Except.ok 2) (fun _ => Except.ok 2) {}
    [{ audio_tts_url := some "t.mp3" }] { audio_tts_url := some "t.mp3" } 2
    (by simp) (by decide) rfl

/-- Photo elements are not bands: filtering the photo part of the short
frame for bands yields nothing, whatever the resolver did. -/
theorem filter_isBand_shortPhotoPart (r : String → Except String (ℤ × ℤ))
    (item : RenderItem) :
    (shortPhotoPart r item).filter FrameElem.isBand = [] := by
  unfold shortPhotoPart
  by_cases h : isSet item.image_url
  · cases hr : r (item.image_url.getD "") with
    | ok wh => cases wh with
      | mk w hgt => simp [h, hr, FrameElem.isBand]
    | error e => simp [h, hr]
  · simp [h]

/-- C7: a photo-load failure never aborts short-mode frame composition:
the drawn text bands are identical for any two image resolvers, and with
a failing resolver the composed frame is exactly the three band parts
with no photo — composition is total, so no photo exception escapes. -/
theorem C7_photo_failure_isolated (r1 r2 : String → Except String (ℤ × ℤ))
    (tw : String → String → ℤ) (item : RenderItem) (e : String) :
    (composeShortFrame r1 tw item).filter FrameElem.isBand
      = (composeShortFrame r2 tw item).filter FrameElem.isBand
  ∧ composeShortFrame (fun _ => Except.error e) tw item
      = shortCatalanPart tw item ++ shortArabicPart tw item
          ++ shortTachelhitPart tw item := by
  constructor
  · simp only [composeShortFrame, List.filter_append,
      filter_isBand_shortPhotoPart]
  · simp [composeShortFrame, shortPhotoPart]

/-- Selecting a language's bands distributes over canvas concatenation. -/
theorem bandsOfLang_append (lang : String) (l1 l2 : List FrameElem) :
    bandsOfLang lang (l1 ++ l2) = bandsOfLang lang l1 ++ bandsOfLang lang l2 := by
  simp [bandsOfLang, List.filter_append]

/-- The photo part contributes no band of any language. -/
theorem bandsOfLang_shortPhotoPart (lang : String)
    (r : String → Except String (ℤ × ℤ)) (item : RenderItem) :
    bandsOfLang lang (shortPhotoPart r item) = [] := by
  unfold shortPhotoPart
  by_cases h : isSet item.image_url
  · cases hr : r (item.image_url.getD "") with
    | ok wh =>
      cases wh with
      | mk w hgt => simp [h, hr, bandsOfLang]
    | error e => simp [h, hr, bandsOfLang]
  · simp [h, bandsOfLang]

/-- Each language's bands in the short frame come exactly from that
language's drawing block. -/
theorem bandsOfLang_composeShortFrame (r : String → Except String (ℤ × ℤ))
    (tw : String → String → ℤ) (item : RenderItem) :
    bandsOfLang "catalan" (composeShortFrame r tw item) = shortCatalanPart tw item
  ∧ bandsOfLang "arabic" (composeShortFrame r tw item) = shortArabicPart tw item
  ∧ bandsOfLang "tachelhit" (composeShortFrame r tw item)
      = shortTachelhitPart tw item := by
  have hca : (("catalan" : String) == "arabic") = false := by decide
  have hct : (("catalan" : String) == "tachelhit") = false := by decide
  have hac : (("arabic" : String) == "catalan") = false := by decide
  have hat : (("arabic" : String) == "tachelhit") = false := by decide
  have htc : (("tachelhit" : String) == "catalan") = false := by decide
  have hta : (("tachelhit" : String) == "arabic") = false := by decide
  refine ⟨?_, ?_, ?_⟩ <;>
  · simp only [composeShortFrame, bandsOfLang_append, bandsOfLang_shortPhotoPart,
      List.nil_append]
    by_cases h1 : isSet item.text_catalan <;>
      by_cases h2 : isSet item.text_arabic <;>
        by_cases h3 : isSet item.text_tachelhit <;>
          simp [shortCatalanPart, shortArabicPart, shortTachelhitPart,
            bandsOfLang, h1, h2, h3, hca, hct, hac, hat, htc, hta]

/-- C8: in short-mode composition each band's vertical placement is a
fixed constant — a band's selected elements are unchanged when the other
two texts are replaced by anything (including omission), and every drawn
band sits at its constant rectangle top/bottom and text y: catalan at
(100, 200, 120), arabic at (230, 310, 240), tachelhit at
(1700, 1800, 1720). -/
theorem C8_fixed_band_positions (r : String → Except String (ℤ × ℤ))
    (tw : String → String → ℤ) (item : RenderItem) (t1 t2 : Option String) :
    bandsOfLang "catalan" (composeShortFrame r tw
        { item with text_arabic := t1, text_tachelhit := t2 })
      = bandsOfLang "catalan" (composeShortFrame r tw item)
  ∧ bandsOfLang "arabic" (composeShortFrame r tw
        { item with text_catalan := t1, text_tachelhit := t2 })
      = bandsOfLang "arabic" (composeShortFrame r tw item)
  ∧ bandsOfLang "tachelhit" (composeShortFrame r tw
        { item with text_catalan := t1, text_arabic := t2 })
      = bandsOfLang "tachelhit" (composeShortFrame r tw item)
  ∧ (bandsOfLang "catalan" (composeShortFrame r tw item)).all
      (fun e => decide (e.vert = (100, 200, 120))) = true
  ∧ (bandsOfLang "arabic" (composeShortFrame r tw item)).all
      (fun e => decide (e.vert = (230, 310, 240))) = true
  ∧ (bandsOfLang "tachelhit" (composeShortFrame r tw item)).all
      (fun e => decide (e.vert = (1700, 1800, 1720))) = true := by
  refine ⟨?_, ?_, ?_, ?_, ?_, ?_⟩
  · rw [(bandsOfLang_composeShortFrame r tw item).1,
      (bandsOfLang_composeShortFrame r tw _).1]
    simp [shortCatalanPart]
  · rw [(bandsOfLang_composeShortFrame r tw item).2.1,
      (bandsOfLang_composeShortFrame r tw _).2.1]
    simp [shortArabicPart]
  · rw [(bandsOfLang_composeShortFrame r tw item).2.2,
      (bandsOfLang_composeShortFrame r tw _).2.2]
    simp [shortTachelhitPart]
  · rw [(bandsOfLang_composeShortFrame r tw item).1]
    by_cases h : isSet item.text_catalan <;>
      simp [shortCatalanPart, h, FrameElem.vert]
  · rw [(bandsOfLang_composeShortFrame r tw item).2.1]
    by_cases h : isSet item.text_arabic <;>
      simp [shortArabicPart, h, FrameElem.vert]
  · rw [(bandsOfLang_composeShortFrame r tw item).2.2]
    by_cases h : isSet item.text_tachelhit <;>
      simp [shortTachelhitPart, h, FrameElem.vert, SHORT_HEIGHT]

end TachelhitDrills
